import Mathlib

/-!
Shallow embedding of the InTime session/attendance tracking engine
(src/src/services/StorageService.js cached version, src/src/services/NetworkService.js,
and the `checkNetworkAndSession` evaluator of src/App.js).

Timestamps are milliseconds since epoch as `Nat`; the local timezone is
taken to be UTC offset 0, so `moment(t).format('YYYY-MM-DD')` is modelled
by the local day index `t / 86400000` (the format is injective on day
indices, which is all the engine uses it for), and
`moment(t).endOf('day').valueOf()` by `(t / 86400000 + 1) * 86400000 - 1`.
Durations are `Int` (JS subtraction can go negative).
Store failures are injected through a `FailSpec` telling which
AsyncStorage primitives throw; JSON-parsed stored values are modelled as
either well-formed or `corrupt` (on which `JSON.parse` throws).
-/

namespace InTime

/-- Milliseconds per local calendar day. -/
def msPerDay : Nat := 86400000

/-- Day index of a timestamp: model of `moment(t).format('YYYY-MM-DD')`
(local = UTC in this embedding; the string key is replaced by the day
index, on which the format is injective). -/
def dayKey (t : Nat) : Nat := t / msPerDay

/-- Model of `moment(t).endOf('day').valueOf()`: last millisecond of the
local day containing `t`. -/
def endOfDay (t : Nat) : Nat := (dayKey t + 1) * msPerDay - 1

/-- Model of the JS `s.replace(/^"|"$/g, '')` idiom used for SSIDs:
remove one leading and one trailing double quote when present. -/
def stripQuotes (s : String) : String :=
  let cs := s.data
  let cs1 := match cs with
    | '"' :: t => t
    | _ => cs
  let cs2 := if cs1.getLast? = some '"' then cs1.dropLast else cs1
  ⟨cs2⟩

/-- JS string truthiness for an optional string: `null`/`undefined` and
the empty string are falsy. -/
def truthy : Option String → Bool
  | none => false
  | some s => s ≠ ""

/-- A JS number as produced by `parseFloat`: either NaN or a (rational)
value; the engine only ever produces decimal literals. -/
inductive JNum where
  | nan : JNum
  | val (q : ℚ) : JNum
deriving DecidableEq, Repr

/-- Digit run to a natural number. -/
def digitsToNat (ds : List Char) : Nat :=
  ds.foldl (fun a c => a * 10 + (c.toNat - 48)) 0

/-- Model of the JS builtin `parseFloat`, restricted to the fragment this
app can produce or store (optional sign, decimal digits, optional
fractional part; trailing garbage ignored): NaN when no digits lead the
string. Exponents, Infinity and leading whitespace are outside the
fragment `setGoalHours`/user input use. -/
def parseFloatJ (s : String) : JNum :=
  let cs := s.data
  let signAndRest : Int × List Char :=
    match cs with
    | '-' :: t => (-1, t)
    | '+' :: t => (1, t)
    | _ => (1, cs)
  let intPart := signAndRest.2.takeWhile Char.isDigit
  let rest := signAndRest.2.dropWhile Char.isDigit
  let fracPart : List Char :=
    match rest with
    | '.' :: t => t.takeWhile Char.isDigit
    | _ => []
  if intPart.isEmpty ∧ fracPart.isEmpty then JNum.nan
  else
    JNum.val ((signAndRest.1 : ℚ) *
      ((digitsToNat intPart : ℚ) + (digitsToNat fracPart : ℚ) / (10 ^ fracPart.length)))

/-- The live session object `{start, lastActive}`. -/
structure SessionRec where
  start : Nat
  lastActive : Nat
deriving DecidableEq, Repr

/-- A closed SessionDetail interval `{start, end, duration}`. -/
structure SessionDetail where
  start : Nat
  stop : Nat
  duration : Int
deriving DecidableEq, Repr

/-- The HISTORY map: insertion-ordered day-key → accumulated ms, as a JS
object is (association list keyed by day index). -/
abbrev HistMap := List (Nat × Int)

/-- The SESSIONS map: day-key → insertion-ordered interval list. -/
abbrev SessMap := List (Nat × List SessionDetail)

/-- Lookup `history[dateKey] || 0`. -/
def histGet (h : HistMap) (k : Nat) : Int :=
  match h.find? (fun p => p.1 = k) with
  | some p => p.2
  | none => 0

/-- Update `history[dateKey] = currentTotal + durationMs` on a JS object:
in-place update when the key exists, appended otherwise. -/
def histSet (h : HistMap) (k : Nat) (v : Int) : HistMap :=
  if h.any (fun p => p.1 = k) then
    h.map (fun p => if p.1 = k then (k, v) else p)
  else h ++ [(k, v)]

/-- Lookup `allSessions[dateKey] || []`. -/
def sessGet (m : SessMap) (k : Nat) : List SessionDetail :=
  match m.find? (fun p => p.1 = k) with
  | some p => p.2
  | none => []

/-- Append `allSessions[dateKey].push(entry)` with bucket creation. -/
def sessPush (m : SessMap) (k : Nat) (e : SessionDetail) : SessMap :=
  if m.any (fun p => p.1 = k) then
    m.map (fun p => if p.1 = k then (p.1, p.2 ++ [e]) else p)
  else m ++ [(k, [e])]

/-- A JSON-encoded stored value: either well-formed of the expected shape
or corrupt (on which `JSON.parse` throws). -/
inductive JsonV (α : Type) where
  | corrupt : JsonV α
  | ok (a : α) : JsonV α
deriving DecidableEq, Repr

/-- The persistent AsyncStorage contents, one field per key;
`none` = key absent. -/
structure Store where
  targetSSID : Option String := none
  rawSSID : Option String := none
  goalHours : Option String := none
  manualPause : Option String := none
  currentSession : Option (JsonV SessionRec) := none
  history : Option (JsonV HistMap) := none
  sessions : Option (JsonV SessMap) := none
deriving DecidableEq, Repr

/-- The module-level in-memory cache. Each slot is `none` when the JS
value is `undefined` (never populated); the inner value mirrors what the
code stores there (`null` = inner `none`). -/
structure Cache where
  targetSSID : Option (Option String) := none
  rawSSID : Option (Option String) := none
  goalHours : Option JNum := none
  manualPause : Option Bool := none
  currentSession : Option (Option SessionRec) := none
deriving DecidableEq, Repr

/-- Whole engine state: cache, store, the `_isEnding` reentrancy flag and
a counter of `AsyncStorage.getItem` calls (to express cache-hit claims). -/
structure EngineState where
  cache : Cache := {}
  store : Store := {}
  isEnding : Bool := false
  getCount : Nat := 0
deriving DecidableEq, Repr

/-- Failure injection: which AsyncStorage primitives throw during a call. -/
structure FailSpec where
  getFails : Bool := false
  setFails : Bool := false
  removeFails : Bool := false
deriving DecidableEq, Repr

/-- No store failures. -/
def noFail : FailSpec := {}

/-- Count one `AsyncStorage.getItem` attempt. -/
def tick (s : EngineState) : EngineState := { s with getCount := s.getCount + 1 }

namespace StorageService

/-- JS `setTargetSSID(name, rawSSID)` (cached version, StorageService.js
lines 301-320). -/
def setTargetSSID (f : FailSpec) (name rawSSID : Option String) (s : EngineState) :
    EngineState × Except Unit Unit :=
  if ¬ truthy name then
    let s1 := { s with cache := { s.cache with targetSSID := some none, rawSSID := some none } }
    if f.removeFails then (s1, .ok ())   -- removeItem throws, caught
    else ({ s1 with store := { s1.store with targetSSID := none, rawSSID := none } }, .ok ())
  else
    let n := name.getD ""
    let s1 := { s with cache := { s.cache with targetSSID := some (some n) } }
    if f.setFails then (s1, .ok ())      -- setItem throws, caught
    else
      let s2 := { s1 with store := { s1.store with targetSSID := some n } }
      if ¬ truthy rawSSID then (s2, .ok ())
      else
        let clean := stripQuotes (rawSSID.getD "")
        let s3 := { s2 with cache := { s2.cache with rawSSID := some (some clean) } }
        ({ s3 with store := { s3.store with rawSSID := some clean } }, .ok ())

/-- JS `getTargetSSID()` (cache-first). -/
def getTargetSSID (f : FailSpec) (s : EngineState) :
    EngineState × Except Unit (Option String) :=
  match s.cache.targetSSID with
  | some v => (s, .ok v)
  | none =>
    if f.getFails then (tick s, .ok none)  -- getItem throws, caught, returns null
    else
      let v := s.store.targetSSID
      ({ tick s with cache := { s.cache with targetSSID := some v } }, .ok v)

/-- JS `getRawSSID()` (cache-first). -/
def getRawSSID (f : FailSpec) (s : EngineState) :
    EngineState × Except Unit (Option String) :=
  match s.cache.rawSSID with
  | some v => (s, .ok v)
  | none =>
    if f.getFails then (tick s, .ok none)
    else
      let v := s.store.rawSSID
      ({ tick s with cache := { s.cache with rawSSID := some v } }, .ok v)

/-- JS `getGoalHours()` (cache-first; absent → 8.5; stored string goes
through `parseFloat`). -/
def getGoalHours (f : FailSpec) (s : EngineState) :
    EngineState × Except Unit JNum :=
  match s.cache.goalHours with
  | some v => (s, .ok v)
  | none =>
    if f.getFails then (tick s, .ok (JNum.val (17/2)))  -- caught, default 8.5
    else
      let parsed := match s.store.goalHours with
        | none => JNum.val (17/2)
        | some str => parseFloatJ str
      ({ tick s with cache := { s.cache with goalHours := some parsed } }, .ok parsed)

/-- JS `getManualPause()` (cache-first; stored string compare with the literal true). -/
def getManualPause (f : FailSpec) (s : EngineState) :
    EngineState × Except Unit Bool :=
  match s.cache.manualPause with
  | some b => (s, .ok b)
  | none =>
    if f.getFails then (tick s, .ok false)
    else
      let b := s.store.manualPause = some "true"
      ({ tick s with cache := { s.cache with manualPause := some b } }, .ok b)

/-- JS `setManualPause(isPaused)`: cache written before the store write. -/
def setManualPause (f : FailSpec) (b : Bool) (s : EngineState) :
    EngineState × Except Unit Unit :=
  let s1 := { s with cache := { s.cache with manualPause := some b } }
  if f.setFails then (s1, .ok ())
  else ({ s1 with store := { s1.store with manualPause := some (if b then "true" else "false") } },
        .ok ())

/-- JS `startSession()`: `{start: now, lastActive: now}` cached then persisted. -/
def startSession (f : FailSpec) (now : Nat) (s : EngineState) :
    EngineState × Except Unit (Option SessionRec) :=
  let sess : SessionRec := ⟨now, now⟩
  let s1 := { s with cache := { s.cache with currentSession := some (some sess) } }
  if f.setFails then (s1, .ok none)  -- setItem throws, caught, returns undefined
  else ({ s1 with store := { s1.store with currentSession := some (.ok sess) } },
        .ok (some sess))

/-- JS `getCurrentSession()` (cache-first, store fallback, corrupt JSON
caught as null). -/
def getCurrentSession (f : FailSpec) (s : EngineState) :
    EngineState × Except Unit (Option SessionRec) :=
  match s.cache.currentSession with
  | some v => (s, .ok v)
  | none =>
    if f.getFails then (tick s, .ok none)
    else
      match s.store.currentSession with
      | none => ({ tick s with cache := { s.cache with currentSession := some none } }, .ok none)
      | some .corrupt => (tick s, .ok none)  -- JSON.parse throws, caught
      | some (.ok sess) =>
        ({ tick s with cache := { s.cache with currentSession := some (some sess) } },
         .ok (some sess))

/-- JS `updateSessionHeartbeat()` (cache-first resolve, store fallback;
sets `lastActive = now` and persists). -/
def updateSessionHeartbeat (f : FailSpec) (now : Nat) (s : EngineState) :
    EngineState × Except Unit (Option SessionRec) :=
  let proceed : SessionRec → EngineState → EngineState × Except Unit (Option SessionRec) :=
    fun sess st =>
      let sess1 : SessionRec := { sess with lastActive := now }
      let s1 := { st with cache := { st.cache with currentSession := some (some sess1) } }
      if f.setFails then (s1, .ok none)  -- setItem throws, caught, falls to `return null`
      else ({ s1 with store := { s1.store with currentSession := some (.ok sess1) } },
            .ok (some sess1))
  match s.cache.currentSession with
  | some (some sess) => proceed sess s
  | _ =>
    if f.getFails then (tick s, .ok none)
    else
      match s.store.currentSession with
      | none => (tick s, .ok none)
      | some .corrupt => (tick s, .ok none)  -- JSON.parse throws, caught
      | some (.ok sess) => proceed sess (tick s)

/-- JS `addToHistory(timestamp, durationMs)`: read-modify-write of the whole
HISTORY map; all failures caught internally. -/
def addToHistory (f : FailSpec) (timestamp : Nat) (durationMs : Int) (s : EngineState) :
    EngineState × Except Unit Unit :=
  if f.getFails then (tick s, .ok ())  -- getItem throws, caught
  else
    match s.store.history with
    | some .corrupt => (tick s, .ok ())  -- JSON.parse throws, caught
    | other =>
      let h : HistMap := match other with
        | some (.ok h) => h
        | _ => []
      let k := dayKey timestamp
      let h1 := histSet h k (histGet h k + durationMs)
      if f.setFails then (tick s, .ok ())
      else ({ tick s with store := { s.store with history := some (.ok h1) } }, .ok ())

/-- JS `addSessionDetail(startTime, endTime)`: read-modify-write of the whole
SESSIONS map, bucketed by `startTime`'s day key. -/
def addSessionDetail (f : FailSpec) (startTime endTime : Nat) (s : EngineState) :
    EngineState × Except Unit Unit :=
  if f.getFails then (tick s, .ok ())
  else
    match s.store.sessions with
    | some .corrupt => (tick s, .ok ())
    | other =>
      let m : SessMap := match other with
        | some (.ok m) => m
        | _ => []
      let k := dayKey startTime
      let e : SessionDetail := ⟨startTime, endTime, (endTime : Int) - (startTime : Int)⟩
      let m1 := sessPush m k e
      if f.setFails then (tick s, .ok ())
      else ({ tick s with store := { s.store with sessions := some (.ok m1) } }, .ok ())

/-- JS `getHistory()`: corrupt/missing JSON and read failures all yield the empty map. -/
def getHistory (f : FailSpec) (s : EngineState) :
    EngineState × Except Unit HistMap :=
  if f.getFails then (tick s, .ok [])
  else
    match s.store.history with
    | some (.ok h) => (tick s, .ok h)
    | _ => (tick s, .ok [])

/-- JS `getTodayDuration()`. -/
def getTodayDuration (f : FailSpec) (now : Nat) (s : EngineState) :
    EngineState × Except Unit Int :=
  if f.getFails then (tick s, .ok 0)
  else
    match s.store.history with
    | some (.ok h) => (tick s, .ok (histGet h (dayKey now)))
    | _ => (tick s, .ok 0)

/-- JS `getDurationForDate(dateKey)`. -/
def getDurationForDate (f : FailSpec) (k : Nat) (s : EngineState) :
    EngineState × Except Unit Int :=
  if f.getFails then (tick s, .ok 0)
  else
    match s.store.history with
    | some (.ok h) => (tick s, .ok (histGet h k))
    | _ => (tick s, .ok 0)

/-- JS `getTodaySessions()`. -/
def getTodaySessions (f : FailSpec) (now : Nat) (s : EngineState) :
    EngineState × Except Unit (List SessionDetail) :=
  if f.getFails then (tick s, .ok [])
  else
    match s.store.sessions with
    | some (.ok m) => (tick s, .ok (sessGet m (dayKey now)))
    | _ => (tick s, .ok [])

/-- JS `getSessionsForDate(dateKey)`. -/
def getSessionsForDate (f : FailSpec) (k : Nat) (s : EngineState) :
    EngineState × Except Unit (List SessionDetail) :=
  if f.getFails then (tick s, .ok [])
  else
    match s.store.sessions with
    | some (.ok m) => (tick s, .ok (sessGet m k))
    | _ => (tick s, .ok [])

/-- JS `clearHistory()`: the one operation with no try/catch — a failing
`removeItem` propagates to the caller. -/
def clearHistory (f : FailSpec) (s : EngineState) :
    EngineState × Except Unit Unit :=
  if f.removeFails then (s, .error ())  -- first removeItem throws, uncaught
  else ({ s with store := { s.store with history := none, sessions := none } }, .ok ())

/-- The tail of `endSession` once the live session is resolved: with
`lastActive = now`, same-day or midnight-split bookkeeping, then clearing
the session (cache then store). Every interior failure is swallowed
exactly where the JS try/catch sits. -/
def endSessionFinish (f : FailSpec) (now : Nat) (sess : SessionRec)
    (st : EngineState) : EngineState :=
  let startDayK := dayKey sess.start
  let endDayK := dayKey now
  let st1 :=
    if startDayK ≠ endDayK then
      -- cross-midnight split
      let midnight := endOfDay sess.start
      let duration1 : Int := (midnight : Int) - (sess.start : Int)
      let sA :=
        if duration1 ≥ 1000 then
          (addSessionDetail f sess.start midnight
            (addToHistory f sess.start duration1 st).1).1
        else st
      let startOfNewDay := midnight + 1
      let duration2 : Int := (now : Int) - (startOfNewDay : Int)
      if duration2 ≥ 1000 then
        (addSessionDetail f startOfNewDay now
          (addToHistory f now duration2 sA).1).1
      else sA
    else
      -- normal single day session
      let duration : Int := (now : Int) - (sess.start : Int)
      if duration ≥ 1000 then
        (addSessionDetail f sess.start now
          (addToHistory f sess.start duration st).1).1
      else st
  let st2 := { st1 with cache := { st1.cache with currentSession := some none } }
  if f.removeFails then st2  -- removeItem throws, caught by the outer catch
  else { st2 with store := { st2.store with currentSession := none } }

/-- The body of `endSession` once the guard is taken: resolve the session
(cache first, store fallback) and run `endSessionFinish` on it. -/
def endSessionBody (f : FailSpec) (now : Nat) (s : EngineState) : EngineState :=
  match s.cache.currentSession with
  | some (some sess) => endSessionFinish f now sess s
  | _ =>
    if f.getFails then tick s  -- getItem throws, caught by the outer catch
    else
      match s.store.currentSession with
      | none => tick s
      | some .corrupt => tick s  -- JSON.parse throws, caught
      | some (.ok sess) => endSessionFinish f now sess (tick s)

/-- JS `endSession()` (StorageService.js lines 436-493): reentrancy guard,
body under try/catch, guard released in `finally`. The call never throws. -/
def endSession (f : FailSpec) (now : Nat) (s : EngineState) :
    EngineState × Except Unit Unit :=
  if s.isEnding then (s, .ok ())
  else
    let s1 := { s with isEnding := true }
    let s2 := endSessionBody f now s1
    ({ s2 with isEnding := false }, .ok ())

end StorageService

/-- The platform `react-native` reports. -/
inductive Platform where
  | android
  | ios
  | other
deriving DecidableEq, Repr

/-- The NetInfo state the Network Oracle reports on a tick, plus the
expo-location probe outcome the Android SSID path consults. -/
structure NetSt where
  isWifiType : Bool            -- state.type === 'wifi'
  isConnected : Bool           -- state.isConnected
  detailsSSID : Option String  -- state.details?.ssid
  locationEnabled : Bool       -- providerStatus.locationServicesEnabled
  locationCheckThrows : Bool   -- getProviderStatusAsync rejects
deriving DecidableEq, Repr

namespace NetworkService

/-- JS `isConnectedToWifi()` (NetworkService.js lines 155-163). -/
def isConnectedToWifi (n : NetSt) : Bool :=
  n.isWifiType ∧ n.isConnected

/-- JS `getCurrentSSID()` (NetworkService.js lines 20-65): null off Wi-Fi;
on Android, null when the location probe succeeds and reports disabled;
otherwise the quote-stripped `details.ssid` when that value is truthy
(the guard `state.details?.ssid` skips an absent or empty string, falling
through to null; a quoted-empty SSID passes the guard and strips to the
empty string). -/
def getCurrentSSID (p : Platform) (n : NetSt) : Option String :=
  if ¬ n.isWifiType then none
  else if p = .android ∧ ¬ n.locationCheckThrows ∧ ¬ n.locationEnabled then none
  else
    match p, n.detailsSSID with
    | .android, some ssid => if ssid = "" then none else some (stripQuotes ssid)
    | .ios, some ssid => if ssid = "" then none else some (stripQuotes ssid)
    | _, _ => none

/-- JS `isConnectedToTargetNetwork(targetSSID)` (NetworkService.js lines
72-121): Android requires an exact resolved-SSID match and fails on a
falsy resolved SSID (`if (!currentSSID) return false` — null or empty);
iOS falls back to "any Wi-Fi matches" whenever the resolved SSID is falsy
(`if (currentSSID)` — null or empty falls through to `return true`). -/
def isConnectedToTargetNetwork (p : Platform) (n : NetSt) (targetSSID : String) : Bool :=
  if ¬ (n.isWifiType ∧ n.isConnected) then false
  else if targetSSID = "" then false
  else
    match p with
    | .android =>
      let cur := getCurrentSSID p n
      if ¬ truthy cur then false  -- !currentSSID: SSID unavailable
      else cur.getD "" = targetSSID
    | .ios =>
      let cur := getCurrentSSID p n
      if truthy cur then cur.getD "" = targetSSID
      else true  -- iOS limitation: any Wi-Fi = match
    | .other => false

end NetworkService

/-- The React component state the evaluator commits through setters. -/
structure UIState where
  isConnectedToOffice : Bool := false
  currentSSIDName : String := "Not Connected"
  sessionDurationMs : Int := 0
  isManualStop : Bool := false
  currentSessionStart : Option Nat := none
  isOnTargetNetwork : Bool := false
  uiTargetSSID : Option String := none
deriving DecidableEq, Repr

namespace App

open StorageService

/-- JS `refreshTotals()` restricted to its engine effect: three store reads
(today's duration, the history map, today's sessions); it mutates nothing
but the read counter. -/
def refreshTotals (f : FailSpec) (now : Nat) (s : EngineState) : EngineState :=
  (getTodaySessions f now (getHistory f (getTodayDuration f now s).1).1).1

/-- The network-match value the evaluator computes (App.js lines 242-260):
`isConnectedToTargetNetwork` when on Wi-Fi with a truthy stored raw SSID,
true on Wi-Fi with no stored raw SSID, false otherwise. -/
def networkMatch (p : Platform) (n : NetSt) (storedSSID : Option String) : Bool :=
  let isWifi := NetworkService.isConnectedToWifi n
  if isWifi ∧ truthy storedSSID then
    NetworkService.isConnectedToTargetNetwork p n (storedSSID.getD "")
  else if isWifi ∧ ¬ truthy storedSSID then true
  else false

/-- JS `checkNetworkAndSession()` (App.js lines 199-325): one Evaluator tick.
Returns the engine state and the committed React state. -/
def checkNetworkAndSession (f : FailSpec) (p : Platform) (n : NetSt) (now : Nat)
    (s : EngineState) (ui : UIState) : EngineState × UIState :=
  let isWifi := NetworkService.isConnectedToWifi n
  let name0 : String := if isWifi then "Wi-Fi Connected" else "Not Connected"
  let (s1, rTarget) := getTargetSSID f s
  let storedTarget : Option String := rTarget.toOption.getD none
  let (s2, rRaw) := getRawSSID f s1
  let storedSSID : Option String := rRaw.toOption.getD none
  let (s3, rPause) := getManualPause f s2
  let isPaused0 : Bool := rPause.toOption.getD false
  -- Auto-Reset Manual Stop if disconnected
  let s4 := if ¬ isWifi ∧ isPaused0 then (setManualPause f false s3).1 else s3
  let isPaused := if ¬ isWifi ∧ isPaused0 then false else isPaused0
  let ui1 := { ui with isManualStop := isPaused }
  let (s5, rSess) := getCurrentSession f s4
  let sessionOpt : Option SessionRec := rSess.toOption.getD none
  -- ZOMBIE CHECK
  match sessionOpt with
  | some sess =>
    if (now : Int) - (sess.lastActive : Int) > 20 * 60 * 1000 then
      let s6 := (endSession f now s5).1
      (refreshTotals f now s6,
       { ui1 with sessionDurationMs := 0, isConnectedToOffice := false,
                  currentSSIDName := "Not Connected" })
    else
      checkRest f p n now s5 ui1 isWifi name0 storedTarget storedSSID isPaused (some sess)
  | none =>
    checkRest f p n now s5 ui1 isWifi name0 storedTarget storedSSID isPaused none
where
  /-- The remainder of the tick after the zombie check: SSID matching,
  should-track decision table, heartbeat/midnight handling, label fixup
  and final commit. -/
  checkRest (f : FailSpec) (p : Platform) (n : NetSt) (now : Nat)
      (s5 : EngineState) (ui1 : UIState) (isWifi : Bool) (name0 : String)
      (storedTarget storedSSID : Option String) (isPaused : Bool)
      (sessionOpt : Option SessionRec) : EngineState × UIState :=
    let isOnTargetNetwork := networkMatch p n storedSSID
    let name1 : String :=
      if isWifi ∧ truthy storedSSID ∧ ¬ isOnTargetNetwork then
        match NetworkService.getCurrentSSID p n with
        | some cur => "Non-Office Network (" ++ cur ++ ")"
        | none => "Non-Office Network"
      else name0
    let shouldBeTracking := isOnTargetNetwork ∧ truthy storedTarget ∧ ¬ isPaused
    if sessionOpt.isSome ∧ ¬ shouldBeTracking then
      -- Must Stop
      let s6 := (endSession f now s5).1
      (refreshTotals f now s6,
       { ui1 with sessionDurationMs := 0, isConnectedToOffice := false,
                  currentSSIDName :=
                    if isWifi then
                      (if isOnTargetNetwork then "Wi-Fi Connected (Idle)" else name1)
                    else "Not Connected" })
    else
      let afterBranch : EngineState × UIState × Bool × String × Bool :=
        if shouldBeTracking ∧ sessionOpt.isNone then
          -- Must Start
          let (s6, rNew) := startSession f now s5
          let ui2 := match rNew.toOption.getD none with
            | some newSess => { ui1 with currentSessionStart := some newSess.start }
            | none => ui1
          (s6, ui2, true, storedTarget.getD "", false)
        else
          match sessionOpt with
          | some sess =>
            if dayKey sess.start ≠ dayKey now then
              -- Midnight transition: end, restart, early return (no commit)
              let s6 := (startSession f now (endSession f now s5).1).1
              (s6, ui1, true, name1, true)
            else
              let ui2 := { ui1 with currentSessionStart := some sess.start,
                                    sessionDurationMs := (now : Int) - (sess.start : Int) }
              let s6 :=
                if (now : Int) - (sess.lastActive : Int) > 5000 then
                  (updateSessionHeartbeat f now s5).1
                else s5
              (s6, ui2, true, storedTarget.getD "", false)
          | none =>
            (s5, { ui1 with sessionDurationMs := 0, currentSessionStart := none },
             false, name1, false)
      let (s6, ui2, newIsConnected, name2, earlyReturn) := afterBranch
      if earlyReturn then (s6, ui2)
      else
        let name3 : String :=
          if ¬ truthy storedTarget then
            (if isWifi then "Wi-Fi Connected (Not Configured)" else "Not Connected")
          else if isWifi ∧ isPaused then "Paused (Manual)"
          else name2
        (s6, { ui2 with isConnectedToOffice := newIsConnected,
                        currentSSIDName := name3,
                        uiTargetSSID := storedTarget,
                        isOnTargetNetwork := isOnTargetNetwork })

end App

/-! ## Frame and effect lemmas -/

open StorageService

section Frames

lemma addToHistory_frame (f : FailSpec) (t : Nat) (d : Int) (s : EngineState) :
    ((addToHistory f t d s).1).cache = s.cache ∧
    ((addToHistory f t d s).1).isEnding = s.isEnding ∧
    ((addToHistory f t d s).1).store.currentSession = s.store.currentSession ∧
    ((addToHistory f t d s).1).store.manualPause = s.store.manualPause ∧
    ((addToHistory f t d s).1).store.sessions = s.store.sessions ∧
    ((addToHistory f t d s).1).store.targetSSID = s.store.targetSSID ∧
    ((addToHistory f t d s).1).store.rawSSID = s.store.rawSSID ∧
    ((addToHistory f t d s).1).store.goalHours = s.store.goalHours := by
  unfold addToHistory
  and_intros <;> (repeat' split) <;> simp [tick]

lemma addSessionDetail_frame (f : FailSpec) (a b : Nat) (s : EngineState) :
    ((addSessionDetail f a b s).1).cache = s.cache ∧
    ((addSessionDetail f a b s).1).isEnding = s.isEnding ∧
    ((addSessionDetail f a b s).1).store.currentSession = s.store.currentSession ∧
    ((addSessionDetail f a b s).1).store.manualPause = s.store.manualPause ∧
    ((addSessionDetail f a b s).1).store.history = s.store.history ∧
    ((addSessionDetail f a b s).1).store.targetSSID = s.store.targetSSID ∧
    ((addSessionDetail f a b s).1).store.rawSSID = s.store.rawSSID ∧
    ((addSessionDetail f a b s).1).store.goalHours = s.store.goalHours := by
  unfold addSessionDetail
  and_intros <;> (repeat' split) <;> simp [tick]

lemma getTargetSSID_frame (f : FailSpec) (s : EngineState) :
    ((getTargetSSID f s).1).store = s.store ∧
    ((getTargetSSID f s).1).isEnding = s.isEnding ∧
    ((getTargetSSID f s).1).cache.rawSSID = s.cache.rawSSID ∧
    ((getTargetSSID f s).1).cache.goalHours = s.cache.goalHours ∧
    ((getTargetSSID f s).1).cache.manualPause = s.cache.manualPause ∧
    ((getTargetSSID f s).1).cache.currentSession = s.cache.currentSession := by
  unfold getTargetSSID
  and_intros <;> (repeat' split) <;> simp [tick]

lemma getRawSSID_frame (f : FailSpec) (s : EngineState) :
    ((getRawSSID f s).1).store = s.store ∧
    ((getRawSSID f s).1).isEnding = s.isEnding ∧
    ((getRawSSID f s).1).cache.targetSSID = s.cache.targetSSID ∧
    ((getRawSSID f s).1).cache.goalHours = s.cache.goalHours ∧
    ((getRawSSID f s).1).cache.manualPause = s.cache.manualPause ∧
    ((getRawSSID f s).1).cache.currentSession = s.cache.currentSession := by
  unfold getRawSSID
  and_intros <;> (repeat' split) <;> simp [tick]

lemma getManualPause_frame (f : FailSpec) (s : EngineState) :
    ((getManualPause f s).1).store = s.store ∧
    ((getManualPause f s).1).isEnding = s.isEnding ∧
    ((getManualPause f s).1).cache.targetSSID = s.cache.targetSSID ∧
    ((getManualPause f s).1).cache.rawSSID = s.cache.rawSSID ∧
    ((getManualPause f s).1).cache.goalHours = s.cache.goalHours ∧
    ((getManualPause f s).1).cache.currentSession = s.cache.currentSession := by
  unfold getManualPause
  and_intros <;> (repeat' split) <;> simp [tick]

lemma setManualPause_effect (f : FailSpec) (b : Bool) (s : EngineState) :
    ((setManualPause f b s).1).isEnding = s.isEnding ∧
    ((setManualPause f b s).1).cache.targetSSID = s.cache.targetSSID ∧
    ((setManualPause f b s).1).cache.rawSSID = s.cache.rawSSID ∧
    ((setManualPause f b s).1).cache.goalHours = s.cache.goalHours ∧
    ((setManualPause f b s).1).cache.currentSession = s.cache.currentSession ∧
    ((setManualPause f b s).1).store.targetSSID = s.store.targetSSID ∧
    ((setManualPause f b s).1).store.rawSSID = s.store.rawSSID ∧
    ((setManualPause f b s).1).store.goalHours = s.store.goalHours ∧
    ((setManualPause f b s).1).store.currentSession = s.store.currentSession ∧
    ((setManualPause f b s).1).store.history = s.store.history ∧
    ((setManualPause f b s).1).store.sessions = s.store.sessions ∧
    ((setManualPause f b s).1).cache.manualPause = some b ∧
    (f.setFails = false →
      ((setManualPause f b s).1).store.manualPause =
        some (if b then "true" else "false")) := by
  unfold setManualPause
  and_intros <;> (try intro hsf) <;> split_ifs <;> simp_all

lemma getCurrentSession_frame (f : FailSpec) (s : EngineState) :
    ((getCurrentSession f s).1).store = s.store ∧
    ((getCurrentSession f s).1).isEnding = s.isEnding ∧
    ((getCurrentSession f s).1).cache.targetSSID = s.cache.targetSSID ∧
    ((getCurrentSession f s).1).cache.rawSSID = s.cache.rawSSID ∧
    ((getCurrentSession f s).1).cache.goalHours = s.cache.goalHours ∧
    ((getCurrentSession f s).1).cache.manualPause = s.cache.manualPause := by
  unfold getCurrentSession
  and_intros <;> (repeat' split) <;> simp [tick]

/-- After a read that reports a live session, the cache slot holds it. -/
lemma getCurrentSession_resolves (f : FailSpec) (s : EngineState) (sess : SessionRec)
    (h : (getCurrentSession f s).2 = .ok (some sess)) :
    ((getCurrentSession f s).1).cache.currentSession = some (some sess) := by
  rcases hx : s.cache.currentSession with _ | v
  · by_cases hf : f.getFails = true
    · simp [getCurrentSession, hx, hf] at h
    · rcases hy : s.store.currentSession with _ | (_ | sess2) <;>
        simp_all [getCurrentSession, hx, hf, hy]
  · simp_all [getCurrentSession]

/-- The read result only depends on the session slot and stored session. -/
lemma getCurrentSession_congr (f : FailSpec) (s s' : EngineState)
    (hc : s'.cache.currentSession = s.cache.currentSession)
    (hs : s'.store.currentSession = s.store.currentSession) :
    (getCurrentSession f s').2 = (getCurrentSession f s).2 := by
  simp only [getCurrentSession, hc, hs]
  rcases hx : s.cache.currentSession with _ | v
  · by_cases hf : f.getFails = true
    · simp [hf]
    · rcases hy : s.store.currentSession with _ | (_ | sess) <;> simp [hf]
  · rfl

lemma startSession_frame (f : FailSpec) (now : Nat) (s : EngineState) :
    ((startSession f now s).1).isEnding = s.isEnding ∧
    ((startSession f now s).1).cache.targetSSID = s.cache.targetSSID ∧
    ((startSession f now s).1).cache.rawSSID = s.cache.rawSSID ∧
    ((startSession f now s).1).cache.goalHours = s.cache.goalHours ∧
    ((startSession f now s).1).cache.manualPause = s.cache.manualPause ∧
    ((startSession f now s).1).store.targetSSID = s.store.targetSSID ∧
    ((startSession f now s).1).store.rawSSID = s.store.rawSSID ∧
    ((startSession f now s).1).store.goalHours = s.store.goalHours ∧
    ((startSession f now s).1).store.manualPause = s.store.manualPause ∧
    ((startSession f now s).1).store.history = s.store.history ∧
    ((startSession f now s).1).store.sessions = s.store.sessions := by
  unfold startSession
  and_intros <;> (repeat' split) <;> simp [tick]

lemma updateSessionHeartbeat_frame (f : FailSpec) (now : Nat) (s : EngineState) :
    ((updateSessionHeartbeat f now s).1).isEnding = s.isEnding ∧
    ((updateSessionHeartbeat f now s).1).cache.targetSSID = s.cache.targetSSID ∧
    ((updateSessionHeartbeat f now s).1).cache.rawSSID = s.cache.rawSSID ∧
    ((updateSessionHeartbeat f now s).1).cache.goalHours = s.cache.goalHours ∧
    ((updateSessionHeartbeat f now s).1).cache.manualPause = s.cache.manualPause ∧
    ((updateSessionHeartbeat f now s).1).store.targetSSID = s.store.targetSSID ∧
    ((updateSessionHeartbeat f now s).1).store.rawSSID = s.store.rawSSID ∧
    ((updateSessionHeartbeat f now s).1).store.goalHours = s.store.goalHours ∧
    ((updateSessionHeartbeat f now s).1).store.manualPause = s.store.manualPause ∧
    ((updateSessionHeartbeat f now s).1).store.history = s.store.history ∧
    ((updateSessionHeartbeat f now s).1).store.sessions = s.store.sessions := by
  unfold updateSessionHeartbeat
  and_intros <;> (repeat' split) <;> simp [tick]

lemma endSessionFinish_effect (f : FailSpec) (now : Nat) (sess : SessionRec)
    (st : EngineState) :
    (endSessionFinish f now sess st).cache.currentSession = some none ∧
    (f.removeFails = false → (endSessionFinish f now sess st).store.currentSession = none) ∧
    (endSessionFinish f now sess st).cache.targetSSID = st.cache.targetSSID ∧
    (endSessionFinish f now sess st).cache.rawSSID = st.cache.rawSSID ∧
    (endSessionFinish f now sess st).cache.goalHours = st.cache.goalHours ∧
    (endSessionFinish f now sess st).cache.manualPause = st.cache.manualPause ∧
    (endSessionFinish f now sess st).store.targetSSID = st.store.targetSSID ∧
    (endSessionFinish f now sess st).store.rawSSID = st.store.rawSSID ∧
    (endSessionFinish f now sess st).store.goalHours = st.store.goalHours ∧
    (endSessionFinish f now sess st).store.manualPause = st.store.manualPause ∧
    (endSessionFinish f now sess st).isEnding = st.isEnding := by
  simp only [endSessionFinish]
  and_intros <;> (try intro hrf) <;> split_ifs <;>
    simp_all [addToHistory_frame, addSessionDetail_frame]

/-- Frame: `endSession` never touches the configuration or pause state, and
leaves the guard as it found it (false when it ran, via the finally). -/
lemma endSession_config_frame (f : FailSpec) (now : Nat) (s : EngineState) :
    ((endSession f now s).1).cache.targetSSID = s.cache.targetSSID ∧
    ((endSession f now s).1).cache.rawSSID = s.cache.rawSSID ∧
    ((endSession f now s).1).cache.goalHours = s.cache.goalHours ∧
    ((endSession f now s).1).cache.manualPause = s.cache.manualPause ∧
    ((endSession f now s).1).store.targetSSID = s.store.targetSSID ∧
    ((endSession f now s).1).store.rawSSID = s.store.rawSSID ∧
    ((endSession f now s).1).store.goalHours = s.store.goalHours ∧
    ((endSession f now s).1).store.manualPause = s.store.manualPause ∧
    ((endSession f now s).1).isEnding = s.isEnding := by
  by_cases hE : s.isEnding = true
  · simp [endSession, hE]
  · have hE2 : s.isEnding = false := by simpa using hE
    rcases hx : s.cache.currentSession with _ | (_ | sess)
    · by_cases hf : f.getFails = true
      · simp [endSession, endSessionBody, hE2, hx, hf, tick]
      · rcases hy : s.store.currentSession with _ | (_ | sess2) <;>
          simp [endSession, endSessionBody, hE2, hx, hf, hy, tick, endSessionFinish_effect]
    · by_cases hf : f.getFails = true
      · simp [endSession, endSessionBody, hE2, hx, hf, tick]
      · rcases hy : s.store.currentSession with _ | (_ | sess2) <;>
          simp [endSession, endSessionBody, hE2, hx, hf, hy, tick, endSessionFinish_effect]
    · simp [endSession, endSessionBody, hE2, hx, endSessionFinish_effect]

/-- A guarded-off `endSession` run on a resolvable live session clears it
from cache and store. -/
lemma endSession_clears (f : FailSpec) (now : Nat) (s : EngineState) (sess : SessionRec)
    (hE : s.isEnding = false)
    (hC : s.cache.currentSession = some (some sess))
    (hR : f.removeFails = false) :
    ((endSession f now s).1).cache.currentSession = some none ∧
    ((endSession f now s).1).store.currentSession = none := by
  simp only [endSession, endSessionBody, hE, hC, Bool.false_eq_true, if_false]
  exact ⟨(endSessionFinish_effect f now sess _).1,
    (endSessionFinish_effect f now sess _).2.1 hR⟩

lemma refreshTotals_frame (f : FailSpec) (now : Nat) (s : EngineState) :
    (App.refreshTotals f now s).cache = s.cache ∧
    (App.refreshTotals f now s).store = s.store ∧
    (App.refreshTotals f now s).isEnding = s.isEnding := by
  unfold App.refreshTotals getTodaySessions getHistory getTodayDuration
  and_intros <;> (repeat' split) <;> simp [tick]

/-- The pause read result only depends on the pause slot and stored flag. -/
lemma getManualPause_congr (f : FailSpec) (s s' : EngineState)
    (hc : s'.cache.manualPause = s.cache.manualPause)
    (hs : s'.store.manualPause = s.store.manualPause) :
    (getManualPause f s').2 = (getManualPause f s).2 := by
  unfold getManualPause
  rw [hc, hs]
  rcases s.cache.manualPause with _ | b
  · by_cases hf : f.getFails = true <;> simp [hf]
  · rfl

/-- The post-zombie part of a tick never touches the manual-pause state. -/
lemma checkRest_pause_frame (f : FailSpec) (p : Platform) (n : NetSt) (now : Nat)
    (s5 : EngineState) (ui1 : UIState) (isWifi : Bool) (name0 : String)
    (storedTarget storedSSID : Option String) (isPaused : Bool)
    (sessionOpt : Option SessionRec) :
    ((App.checkNetworkAndSession.checkRest f p n now s5 ui1 isWifi name0 storedTarget
        storedSSID isPaused sessionOpt).1).cache.manualPause = s5.cache.manualPause ∧
    ((App.checkNetworkAndSession.checkRest f p n now s5 ui1 isWifi name0 storedTarget
        storedSSID isPaused sessionOpt).1).store.manualPause = s5.store.manualPause := by
  rcases hS : startSession f now s5 with ⟨s6, rN⟩
  have FS := startSession_frame f now s5
  rw [hS] at FS; dsimp only at FS
  rcases hSm : startSession f now (endSession f now s5).1 with ⟨s7, rM⟩
  have FSm := startSession_frame f now (endSession f now s5).1
  rw [hSm] at FSm; dsimp only at FSm
  rcases hU : updateSessionHeartbeat f now s5 with ⟨s8, rU⟩
  have FU := updateSessionHeartbeat_frame f now s5
  rw [hU] at FU; dsimp only at FU
  have FE := endSession_config_frame f now s5
  have FR := refreshTotals_frame f now (endSession f now s5).1
  rcases sessionOpt with _ | sess
  · simp only [App.checkNetworkAndSession.checkRest, hS, hSm, hU]
    by_cases c : (App.networkMatch p n storedSSID = true ∧ truthy storedTarget = true ∧
        isPaused = false) <;>
      simp [c] <;>
      first
        | exact ⟨by rw [FR.1, FE.2.2.2.1], by rw [FR.2.1, FE.2.2.2.2.2.2.2.1]⟩
        | exact ⟨FS.2.2.2.2.1, FS.2.2.2.2.2.2.2.2.1⟩
        | exact ⟨rfl, rfl⟩
        | trivial
  · simp only [App.checkNetworkAndSession.checkRest, hS, hSm, hU]
    by_cases c : (App.networkMatch p n storedSSID = true ∧ truthy storedTarget = true ∧
        isPaused = false)
    · by_cases d : dayKey sess.start ≠ dayKey now
      · simp [c, d] <;>
        first
          | exact ⟨FSm.2.2.2.2.1.trans FE.2.2.2.1,
              FSm.2.2.2.2.2.2.2.2.1.trans FE.2.2.2.2.2.2.2.1⟩
          | trivial
      · by_cases hbt : ((5000 : Int) < (now : Int) - (sess.lastActive : Int))
        · simp [c, d, hbt] <;>
          first
            | exact ⟨FU.2.2.2.2.1, FU.2.2.2.2.2.2.2.2.1⟩
            | trivial
        · simp [c, d, hbt] <;>
          first
            | exact ⟨FU.2.2.2.2.1, FU.2.2.2.2.2.2.2.2.1⟩
            | exact ⟨rfl, rfl⟩
            | trivial
    · simp [c] <;>
      first
        | exact ⟨by rw [FR.1, FE.2.2.2.1], by rw [FR.2.1, FE.2.2.2.2.2.2.2.1]⟩
        | trivial

end Frames

/-! ## Claim theorems -/

section Claims

/-- C2. Same-local-day session: below 1000 ms nothing is appended; at or
above 1000 ms exactly one History increment of `lastActive - start` under
the start day's key and exactly one SessionDetail entry with the session's
bounds are appended; the live session is cleared either way. -/
theorem endSession_same_day (s : EngineState) (sess : SessionRec) (h : HistMap)
    (m : SessMap) (now : Nat)
    (hE : s.isEnding = false)
    (hC : s.cache.currentSession = some (some sess))
    (hD : dayKey sess.start = dayKey now)
    (hH : s.store.history = some (.ok h))
    (hS : s.store.sessions = some (.ok m)) :
    let d : Int := (now : Int) - (sess.start : Int)
    let s' := (endSession noFail now s).1
    (d < 1000 → s'.store.history = some (.ok h) ∧ s'.store.sessions = some (.ok m)) ∧
    (d ≥ 1000 →
      s'.store.history =
        some (.ok (histSet h (dayKey sess.start) (histGet h (dayKey sess.start) + d))) ∧
      s'.store.sessions =
        some (.ok (sessPush m (dayKey sess.start) ⟨sess.start, now, d⟩))) ∧
    s'.cache.currentSession = some none ∧ s'.store.currentSession = none := by
  simp only [endSession, endSessionBody, endSessionFinish, hE, hC, hD, Bool.false_eq_true,
    if_false, ne_eq, not_true_eq_false, addToHistory, addSessionDetail, noFail, tick]
  split
  · rename_i hge
    simp only [hH, hS, if_false]
    refine ⟨fun hlt => absurd hge (by omega), fun _ => ⟨?_, ?_⟩, trivial, trivial⟩ <;>
      simp [hD]
  · rename_i hlt
    refine ⟨fun _ => ⟨by simp [hH], by simp [hS]⟩, fun hge => absurd hge hlt, trivial, trivial⟩

/-- C2 witness: a 5-second same-day session at concrete timestamps. -/
theorem endSession_same_day_witness :
    let s : EngineState := { cache := { currentSession := some (some ⟨1000, 1000⟩) },
                             store := { history := some (.ok []), sessions := some (.ok []) } }
    let d : Int := ((6000 : Nat) : Int) - ((1000 : Nat) : Int)
    let s' := (endSession noFail 6000 s).1
    (d < 1000 → s'.store.history = some (.ok []) ∧ s'.store.sessions = some (.ok [])) ∧
    (d ≥ 1000 →
      s'.store.history = some (.ok (histSet [] (dayKey 1000) (histGet [] (dayKey 1000) + d))) ∧
      s'.store.sessions = some (.ok (sessPush [] (dayKey 1000) ⟨1000, 6000, d⟩))) ∧
    s'.cache.currentSession = some none ∧ s'.store.currentSession = none :=
  endSession_same_day _ ⟨1000, 1000⟩ [] [] 6000 rfl rfl rfl rfl rfl

/-- C3. Reentrancy: a call arriving while another is in flight (guard set)
is a silent no-op with no appends, and a call that takes the guard always
releases it, for every injected store failure. -/
theorem endSession_reentrancy (f : FailSpec) (now : Nat) (s : EngineState) :
    (s.isEnding = true → endSession f now s = (s, .ok ())) ∧
    (s.isEnding = false → ((endSession f now s).1).isEnding = false) := by
  constructor
  · intro hE; simp [endSession, hE]
  · intro hE; simp [endSession, hE]

/-- C3 witness: concrete in-flight state is untouched, and a fresh state
ends with the guard released even when every store primitive fails. -/
theorem endSession_reentrancy_witness :
    (endSession ⟨true, true, true⟩ 5000
        ({ isEnding := true, cache := { currentSession := some (some ⟨0, 0⟩) } }) =
      ({ isEnding := true, cache := { currentSession := some (some ⟨0, 0⟩) } }, .ok ())) ∧
    ((endSession ⟨true, true, true⟩ 5000
        ({ cache := { currentSession := some (some ⟨0, 0⟩) } })).1.isEnding = false) :=
  ⟨(endSession_reentrancy ⟨true, true, true⟩ 5000 _).1 rfl,
   (endSession_reentrancy ⟨true, true, true⟩ 5000 _).2 rfl⟩

/-- The first instant after the start day's end-of-day belongs to the day
right after the start day. -/
lemma dayKey_endOfDay_succ (t : Nat) : dayKey (endOfDay t + 1) = dayKey t + 1 := by
  have h2 : endOfDay t + 1 = (dayKey t + 1) * msPerDay := by
    unfold endOfDay dayKey msPerDay; omega
  rw [h2]
  unfold dayKey
  exact Nat.mul_div_cancel _ (by unfold msPerDay; norm_num)

/-- C1 counterexample. A session spanning two midnights (start at epoch
day 0, ended 5 s into day 2): segment B qualifies (duration ≥ 1000 ms),
yet its SessionDetail entry is bucketed under day 1 (the day after the
start day) and the end day's bucket (day 2 = `dayKey now`) stays empty —
so segment B is not "attributed to the end day" as the claim states. -/
theorem endSession_crossMidnight_counterexample :
    let s : EngineState := { cache := { currentSession := some (some ⟨0, 0⟩) },
                             store := { history := some (.ok []), sessions := some (.ok []) } }
    let now : Nat := 172805000
    let s' := (endSession noFail now s).1
    dayKey 0 ≠ dayKey now ∧
    (now : Int) - ((endOfDay 0 + 1 : Nat) : Int) ≥ 1000 ∧
    s'.store.sessions = some (.ok [(0, [⟨0, 86399999, 86399999⟩]),
                                   (1, [⟨86400000, 172805000, 86405000⟩])]) ∧
    sessGet [(0, [⟨0, 86399999, 86399999⟩]), (1, [⟨86400000, 172805000, 86405000⟩])]
      (dayKey now) = [] := by
  decide

/-- C1 amended. Cross-midnight `endSession`: exactly two segments,
A = `[start, endOfDay start]` attributed to the start day, and
B = `[endOfDay start + 1, now]` whose History increment goes to the end
day (`dayKey now`) but whose SessionDetail entry goes to the day right
after the start day (these coincide exactly when one midnight is
crossed); each is appended only when its duration is ≥ 1000 ms, segment A
ends strictly before segment B starts, their durations plus the 1 ms gap
recover the original interval, and the live session is cleared. -/
theorem endSession_cross_midnight (s : EngineState) (sess : SessionRec) (h : HistMap)
    (m : SessMap) (now : Nat)
    (hE : s.isEnding = false)
    (hC : s.cache.currentSession = some (some sess))
    (hD : dayKey sess.start ≠ dayKey now)
    (hH : s.store.history = some (.ok h))
    (hS : s.store.sessions = some (.ok m)) :
    let mid := endOfDay sess.start
    let d1 : Int := (mid : Int) - (sess.start : Int)
    let d2 : Int := (now : Int) - ((mid + 1 : Nat) : Int)
    let h1 := if d1 ≥ 1000 then
        histSet h (dayKey sess.start) (histGet h (dayKey sess.start) + d1) else h
    let h2 := if d2 ≥ 1000 then histSet h1 (dayKey now) (histGet h1 (dayKey now) + d2) else h1
    let m1 := if d1 ≥ 1000 then sessPush m (dayKey sess.start) ⟨sess.start, mid, d1⟩ else m
    let m2 := if d2 ≥ 1000 then sessPush m1 (dayKey sess.start + 1) ⟨mid + 1, now, d2⟩ else m1
    let s' := (endSession noFail now s).1
    s'.store.history = some (.ok h2) ∧
    s'.store.sessions = some (.ok m2) ∧
    dayKey (mid + 1) = dayKey sess.start + 1 ∧
    d1 + d2 + 1 = (now : Int) - (sess.start : Int) ∧
    (mid : Int) < ((mid + 1 : Nat) : Int) ∧
    s'.cache.currentSession = some none ∧ s'.store.currentSession = none := by
  by_cases hd1 : (1000 : Int) ≤ (endOfDay sess.start : Int) - (sess.start : Int) <;>
  by_cases hd2 : (1000 : Int) ≤ (now : Int) - ((endOfDay sess.start : Int) + 1) <;>
  simp only [endSession, endSessionBody, endSessionFinish, addToHistory, addSessionDetail,
    hE, hC, hD, hH, hS, noFail, tick, Nat.cast_add, Nat.cast_one, ge_iff_le,
    hd1, hd2, Bool.false_eq_true, if_false, if_true, ne_eq, not_false_eq_true,
    ite_true, ite_false] <;>
  and_intros <;>
  first
    | rfl
    | trivial
    | (exact dayKey_endOfDay_succ sess.start)
    | omega
    | simp_all [dayKey_endOfDay_succ]

/-- C1 amended witness: a concrete session from 23:00 of day 0 to 01:00
of day 1 (one midnight crossed). -/
theorem endSession_cross_midnight_witness :
    (dayKey 82800000 ≠ dayKey 90000000) ∧
    ((endSession noFail 90000000
        ({ cache := { currentSession := some (some ⟨82800000, 82800000⟩) },
           store := { history := some (.ok []),
                      sessions := some (.ok []) } })).1).store.currentSession = none :=
  ⟨by decide,
   (endSession_cross_midnight
      ({ cache := { currentSession := some (some ⟨82800000, 82800000⟩) },
         store := { history := some (.ok []), sessions := some (.ok []) } })
      ⟨82800000, 82800000⟩ [] [] 90000000 rfl rfl (by decide) rfl rfl).2.2.2.2.2.2⟩

/-- C7 counterexample. `clearHistory` has no try/catch: a failing
`removeItem` surfaces the exception to the caller, contradicting the
claim that no Session Ledger operation ever surfaces one. -/
theorem clearHistory_throws_counterexample :
    (clearHistory ⟨false, false, true⟩ ({} : EngineState)).2 = .error () := rfl

/-- C7 amended. Every Session Ledger operation except `clearHistory`
catches underlying store failures and yields a safe default instead of
surfacing an exception, for every injected failure and state;
`clearHistory` alone propagates a failing store remove to its caller. -/
theorem ledger_catches_store_failures (f : FailSpec) (s : EngineState)
    (name raw : Option String) (b : Bool) (now k ts st en : Nat) (d : Int) :
    (setTargetSSID f name raw s).2 ≠ .error () ∧
    (getTargetSSID f s).2 ≠ .error () ∧
    (getRawSSID f s).2 ≠ .error () ∧
    (getGoalHours f s).2 ≠ .error () ∧
    (getManualPause f s).2 ≠ .error () ∧
    (setManualPause f b s).2 ≠ .error () ∧
    (startSession f now s).2 ≠ .error () ∧
    (getCurrentSession f s).2 ≠ .error () ∧
    (updateSessionHeartbeat f now s).2 ≠ .error () ∧
    (endSession f now s).2 ≠ .error () ∧
    (addToHistory f ts d s).2 ≠ .error () ∧
    (addSessionDetail f st en s).2 ≠ .error () ∧
    (getHistory f s).2 ≠ .error () ∧
    (getTodayDuration f now s).2 ≠ .error () ∧
    (getDurationForDate f k s).2 ≠ .error () ∧
    (getTodaySessions f now s).2 ≠ .error () ∧
    (getSessionsForDate f k s).2 ≠ .error () ∧
    ((clearHistory f s).2 = .error () ↔ f.removeFails = true) := by
  and_intros <;>
    simp only [setTargetSSID, getTargetSSID, getRawSSID, getGoalHours, getManualPause,
      setManualPause, startSession, getCurrentSession, updateSessionHeartbeat,
      endSession, addToHistory, addSessionDetail, getHistory, getTodayDuration,
      getDurationForDate, getTodaySessions, getSessionsForDate, clearHistory] <;>
    (repeat' split) <;> simp_all

/-- C7 amended witness: concrete instantiation with every store primitive
failing — no operation but `clearHistory` reports an error. -/
theorem ledger_catches_store_failures_witness :
    (getHistory ⟨true, true, true⟩ ({} : EngineState)).2 ≠ .error () :=
  (ledger_catches_store_failures ⟨true, true, true⟩ {} none none false 0 0 0 0 0 0).2.2.2.2.2.2.2.2.2.2.2.2.1

/-- C8 counterexample. A stored goal-hours value that does not parse as a
float makes `getGoalHours` return NaN, not the documented default 8.5. -/
theorem getGoalHours_nan_counterexample :
    (getGoalHours noFail ({ store := { goalHours := some "abc" } } : EngineState)).2 =
      .ok JNum.nan ∧
    JNum.nan ≠ JNum.val (17 / 2) := by
  constructor
  · rfl
  · simp

/-- C8 amended. Malformed persisted values: `getHistory` yields the empty
map for corrupt JSON; `getGoalHours` yields the default 8.5 when the
value is absent or the store read fails, but a stored value is passed
through `parseFloat`, so a non-parsing string such as `"abc"` yields NaN
rather than the default. -/
theorem malformed_values_handling (f : FailSpec) (s : EngineState)
    (hc : s.cache.goalHours = none) :
    (f.getFails = false → s.store.history = some .corrupt → (getHistory f s).2 = .ok []) ∧
    (f.getFails = true → (getGoalHours f s).2 = .ok (JNum.val (17 / 2))) ∧
    (f.getFails = false → s.store.goalHours = none →
      (getGoalHours f s).2 = .ok (JNum.val (17 / 2))) ∧
    (f.getFails = false → s.store.goalHours = some "abc" →
      (getGoalHours f s).2 = .ok JNum.nan) := by
  refine ⟨fun hf hh => ?_, fun hf => ?_, fun hf hg => ?_, fun hf hg => ?_⟩
  · simp [getHistory, hf, hh]
  · simp [getGoalHours, hc, hf]
  · simp [getGoalHours, hc, hf, hg]
  · simp only [getGoalHours, hc, hf, hg, Bool.false_eq_true, if_false, ite_false]
    rfl

/-- C8 amended witness: concrete corrupt history and stored `"abc"`. -/
theorem malformed_values_handling_witness :
    (getHistory noFail
        ({ store := { history := some .corrupt, goalHours := some "abc" } } : EngineState)).2 =
      .ok [] ∧
    (getGoalHours noFail
        ({ store := { history := some .corrupt, goalHours := some "abc" } } : EngineState)).2 =
      .ok JNum.nan :=
  ⟨(malformed_values_handling noFail _ rfl).1 rfl rfl,
   (malformed_values_handling noFail _ rfl).2.2.2 rfl rfl⟩

/-- C9. After `setTargetSSID("Work", '"Work-WiFi"')`, `getTargetSSID`
returns `"Work"` and `getRawSSID` returns `"Work-WiFi"` with the quotes
stripped, and neither read touches the store (the `getItem` counter is
unchanged): both are cache hits. -/
theorem setTargetSSID_cache_roundtrip (s : EngineState) :
    let s1 := (setTargetSSID noFail (some "Work") (some "\"Work-WiFi\"") s).1
    let r1 := getTargetSSID noFail s1
    let r2 := getRawSSID noFail r1.1
    r1.2 = .ok (some "Work") ∧ r2.2 = .ok (some "Work-WiFi") ∧
    r2.1.getCount = s.getCount := by
  have hq : stripQuotes "\"Work-WiFi\"" = "Work-WiFi" := rfl
  simp [setTargetSSID, getTargetSSID, getRawSSID, truthy, noFail, hq]

/-- C10. `clearHistory` removes only the History and SessionDetail maps:
the cache, the live session, the target identifiers, the goal hours, the
manual-pause flag and the reentrancy guard are untouched in cache and
store, under every injected failure. -/
theorem clearHistory_frame (f : FailSpec) (s : EngineState) :
    let s' := (clearHistory f s).1
    s'.cache = s.cache ∧
    s'.store.targetSSID = s.store.targetSSID ∧
    s'.store.rawSSID = s.store.rawSSID ∧
    s'.store.goalHours = s.store.goalHours ∧
    s'.store.manualPause = s.store.manualPause ∧
    s'.store.currentSession = s.store.currentSession ∧
    s'.isEnding = s.isEnding ∧ s'.getCount = s.getCount ∧
    (f.removeFails = false → s'.store.history = none ∧ s'.store.sessions = none) := by
  simp only [clearHistory]
  split <;> simp_all

/-- C10 witness: a populated concrete state, with the removal conclusion
discharged at `noFail`. -/
theorem clearHistory_frame_witness :
    let s : EngineState :=
      { cache := { targetSSID := some (some "Work"), manualPause := some true },
        store := { targetSSID := some "Work", rawSSID := some "Work-WiFi",
                   goalHours := some "8.5", manualPause := some "true",
                   currentSession := some (.ok ⟨5, 9⟩),
                   history := some (.ok [(0, 1000)]), sessions := some (.ok []) } }
    let s' := (clearHistory noFail s).1
    s'.cache = s.cache ∧ s'.store.manualPause = s.store.manualPause ∧
    (s'.store.history = none ∧ s'.store.sessions = none) :=
  ⟨(clearHistory_frame noFail _).1, (clearHistory_frame noFail _).2.2.2.2.1,
   (clearHistory_frame noFail _).2.2.2.2.2.2.2.2 rfl⟩

/-- C5 counterexample. On iOS, on Wi-Fi, with a stored raw identifier but
an unresolvable current SSID, the evaluator's network-match value is true
even though the resolved identifier does not equal the stored one — the
claim's "true only when the identifiers are equal" fails. -/
theorem networkMatch_ios_counterexample :
    App.networkMatch .ios ⟨true, true, none, true, false⟩ (some "Work-WiFi") = true ∧
    NetworkService.getCurrentSSID .ios ⟨true, true, none, true, false⟩ = none ∧
    truthy (some "Work-WiFi") = true := by
  decide

/-- C5 amended. The tick's network-match value: false when not on Wi-Fi;
true on Wi-Fi with no stored raw identifier; with a stored identifier it
is an exact (case-sensitive, quote-stripped) match of the resolved SSID
on Android, where a falsy resolved SSID (unresolvable or empty) yields
false; on iOS a falsy resolved SSID instead defaults the match to true
(any Wi-Fi counts); on other platforms the match is false. -/
theorem networkMatch_characterization (p : Platform) (n : NetSt) (stored : Option String) :
    (NetworkService.isConnectedToWifi n = false → App.networkMatch p n stored = false) ∧
    (NetworkService.isConnectedToWifi n = true → truthy stored = false →
      App.networkMatch p n stored = true) ∧
    (NetworkService.isConnectedToWifi n = true → truthy stored = true →
      ((p = .android →
         (App.networkMatch p n stored = true ↔
           NetworkService.getCurrentSSID p n = some (stored.getD ""))) ∧
       (p = .ios →
         (App.networkMatch p n stored = true ↔
           (truthy (NetworkService.getCurrentSSID p n) = false ∨
            NetworkService.getCurrentSSID p n = some (stored.getD "")))) ∧
       (p = .other → App.networkMatch p n stored = false))) := by
  refine ⟨fun hw => ?_, fun hw hs => ?_, fun hw hs => ?_⟩
  · simp [App.networkMatch, hw]
  · simp [App.networkMatch, hw, hs]
  · rcases stored with _ | t
    · simp [truthy] at hs
    · have ht : t ≠ "" := by simpa [truthy] using hs
      simp only [NetworkService.isConnectedToWifi] at hw
      refine ⟨fun hp => ?_, fun hp => ?_, fun hp => ?_⟩ <;> subst hp
      · rcases hg : NetworkService.getCurrentSSID .android n with _ | cur
        · simp_all [App.networkMatch, NetworkService.isConnectedToTargetNetwork,
            NetworkService.isConnectedToWifi, truthy]
        · by_cases hc : cur = "" <;>
            simp_all [App.networkMatch, NetworkService.isConnectedToTargetNetwork,
              NetworkService.isConnectedToWifi, truthy, Ne.symm ht]
      · rcases hg : NetworkService.getCurrentSSID .ios n with _ | cur
        · simp_all [App.networkMatch, NetworkService.isConnectedToTargetNetwork,
            NetworkService.isConnectedToWifi, truthy]
        · by_cases hc : cur = "" <;>
            simp_all [App.networkMatch, NetworkService.isConnectedToTargetNetwork,
              NetworkService.isConnectedToWifi, truthy]
      · simp_all [App.networkMatch, NetworkService.isConnectedToTargetNetwork,
          NetworkService.isConnectedToWifi, truthy]

/-- C5 amended witness: Android, on Wi-Fi, resolved SSID equal to the
stored identifier — match is true. -/
theorem networkMatch_characterization_witness :
    App.networkMatch .android ⟨true, true, some "Work-WiFi", true, false⟩
      (some "Work-WiFi") = true :=
  (((networkMatch_characterization .android ⟨true, true, some "Work-WiFi", true, false⟩
      (some "Work-WiFi")).2.2 (by decide) (by decide)).1 rfl).2 (by decide)

/-- C4. Zombie detection: on any Evaluator tick where a live session is
readable and `now - lastActive` exceeds 20 minutes, the session is
force-ended (cleared from cache and store) and the tick reports Idle
(not connected, "Not Connected", zero duration) — independent of the
platform, the network state and the should-track inputs. -/
theorem zombie_session_force_ended (p : Platform) (n : NetSt) (now : Nat)
    (s : EngineState) (ui : UIState) (sess : SessionRec)
    (hE : s.isEnding = false)
    (hSess : (getCurrentSession noFail s).2 = .ok (some sess))
    (hStale : (now : Int) - (sess.lastActive : Int) > 20 * 60 * 1000) :
    let r := App.checkNetworkAndSession noFail p n now s ui
    (r.2).isConnectedToOffice = false ∧
    (r.2).currentSSIDName = "Not Connected" ∧
    (r.2).sessionDurationMs = 0 ∧
    (r.1).cache.currentSession = some none ∧
    (r.1).store.currentSession = none := by
  rcases h1 : getTargetSSID noFail s with ⟨s1, r1⟩
  have F1 := getTargetSSID_frame noFail s
  rw [h1] at F1; dsimp only at F1
  rcases h2 : getRawSSID noFail s1 with ⟨s2, r2⟩
  have F2 := getRawSSID_frame noFail s1
  rw [h2] at F2; dsimp only at F2
  rcases h3 : getManualPause noFail s2 with ⟨s3, r3⟩
  have F3 := getManualPause_frame noFail s2
  rw [h3] at F3; dsimp only at F3
  have hs3E : s3.isEnding = false := by
    rw [F3.2.1, F2.2.1, F1.2.1, hE]
  have hs3c : s3.cache.currentSession = s.cache.currentSession := by
    rw [F3.2.2.2.2.2, F2.2.2.2.2.2, F1.2.2.2.2.2]
  have hs3s : s3.store.currentSession = s.store.currentSession := by
    rw [F3.1, F2.1, F1.1]
  have tail : ∀ s4 : EngineState,
      s4 = (setManualPause noFail false s3).1 ∨ s4 = s3 →
      ∀ s5 r5, getCurrentSession noFail s4 = (s5, r5) →
      r5 = .ok (some sess) ∧ s5.isEnding = false ∧
        s5.cache.currentSession = some (some sess) := by
    rintro s4 hor s5 r5 h5
    have F4 : s4.isEnding = false ∧ s4.cache.currentSession = s.cache.currentSession ∧
        s4.store.currentSession = s.store.currentSession := by
      rcases hor with rfl | rfl
      · have E := setManualPause_effect noFail false s3
        exact ⟨by rw [E.1, hs3E], by rw [E.2.2.2.2.1, hs3c],
          by rw [E.2.2.2.2.2.2.2.2.1, hs3s]⟩
      · exact ⟨hs3E, hs3c, hs3s⟩
    have hcg := getCurrentSession_congr noFail s s4 F4.2.1 F4.2.2
    rw [h5] at hcg
    have hr5 : r5 = .ok (some sess) := hcg.trans hSess
    have F5 := getCurrentSession_frame noFail s4
    rw [h5] at F5; dsimp only at F5
    have hres := getCurrentSession_resolves noFail s4 sess (by rw [h5]; exact hr5)
    rw [h5] at hres; dsimp only at hres
    exact ⟨hr5, by rw [F5.2.1, F4.1], hres⟩
  have hlt : (1200000 : Int) < (now : Int) - (sess.lastActive : Int) := by omega
  rcases r3 with pu | pb
  · rcases h5 : getCurrentSession noFail s3 with ⟨s5, r5⟩
    obtain ⟨hr5, hs5E, hs5c⟩ := tail _ (Or.inr rfl) s5 r5 h5
    have hclear := endSession_clears noFail now s5 sess hs5E hs5c rfl
    have hRT := refreshTotals_frame noFail now (endSession noFail now s5).1
    simp [App.checkNetworkAndSession, h1, h2, h3, h5, hr5, hlt, Except.toOption,
      hRT.1, hRT.2.1, hclear.1, hclear.2]
  · cases pb
    · rcases h5 : getCurrentSession noFail s3 with ⟨s5, r5⟩
      obtain ⟨hr5, hs5E, hs5c⟩ := tail _ (Or.inr rfl) s5 r5 h5
      have hclear := endSession_clears noFail now s5 sess hs5E hs5c rfl
      have hRT := refreshTotals_frame noFail now (endSession noFail now s5).1
      simp [App.checkNetworkAndSession, h1, h2, h3, h5, hr5, hlt, Except.toOption,
        hRT.1, hRT.2.1, hclear.1, hclear.2]
    · cases hw : NetworkService.isConnectedToWifi n
      · rcases h5 : getCurrentSession noFail ((setManualPause noFail false s3).1) with ⟨s5, r5⟩
        obtain ⟨hr5, hs5E, hs5c⟩ := tail _ (Or.inl rfl) s5 r5 h5
        have hclear := endSession_clears noFail now s5 sess hs5E hs5c rfl
        have hRT := refreshTotals_frame noFail now (endSession noFail now s5).1
        simp [App.checkNetworkAndSession, h1, h2, h3, h5, hr5, hlt, hw, Except.toOption,
          hRT.1, hRT.2.1, hclear.1, hclear.2]
      · rcases h5 : getCurrentSession noFail s3 with ⟨s5, r5⟩
        obtain ⟨hr5, hs5E, hs5c⟩ := tail _ (Or.inr rfl) s5 r5 h5
        have hclear := endSession_clears noFail now s5 sess hs5E hs5c rfl
        have hRT := refreshTotals_frame noFail now (endSession noFail now s5).1
        simp [App.checkNetworkAndSession, h1, h2, h3, h5, hr5, hlt, hw, Except.toOption,
          hRT.1, hRT.2.1, hclear.1, hclear.2]


/-- C4 witness: a concrete stale session (lastActive 0, now ≈ 33 min),
off Wi-Fi, is force-ended and the tick reports Idle. -/
theorem zombie_session_force_ended_witness :
    let s : EngineState := { cache := { currentSession := some (some ⟨0, 0⟩) } }
    let r := App.checkNetworkAndSession noFail .android ⟨false, false, none, false, false⟩
      2000000 s {}
    (r.2).isConnectedToOffice = false ∧ (r.1).store.currentSession = none :=
  ⟨(zombie_session_force_ended .android ⟨false, false, none, false, false⟩ 2000000
      ({ cache := { currentSession := some (some ⟨0, 0⟩) } }) {} ⟨0, 0⟩ rfl rfl
      (by decide)).1,
   (zombie_session_force_ended .android ⟨false, false, none, false, false⟩ 2000000
      ({ cache := { currentSession := some (some ⟨0, 0⟩) } }) {} ⟨0, 0⟩ rfl rfl
      (by decide)).2.2.2.2⟩

/-- C6. Auto-unpause: on any tick where the device is not on Wi-Fi and
the manual-pause flag reads true, the tick clears the flag in the cache
and writes "false" to the store, whatever else the tick goes on to do. -/
theorem auto_unpause_on_disconnect (p : Platform) (n : NetSt) (now : Nat)
    (s : EngineState) (ui : UIState)
    (hw : NetworkService.isConnectedToWifi n = false)
    (hPause : (getManualPause noFail s).2 = .ok true) :
    let r := App.checkNetworkAndSession noFail p n now s ui
    (r.1).cache.manualPause = some false ∧
    (r.1).store.manualPause = some "false" := by
  rcases h1 : getTargetSSID noFail s with ⟨s1, r1⟩
  have F1 := getTargetSSID_frame noFail s
  rw [h1] at F1; dsimp only at F1
  rcases h2 : getRawSSID noFail s1 with ⟨s2, r2⟩
  have F2 := getRawSSID_frame noFail s1
  rw [h2] at F2; dsimp only at F2
  rcases h3 : getManualPause noFail s2 with ⟨s3, r3⟩
  have hr3 : r3 = .ok true := by
    have hcg := getManualPause_congr noFail s s2
      (by rw [F2.2.2.2.2.1, F1.2.2.2.2.1])
      (by rw [F2.1, F1.1])
    rw [h3] at hcg
    exact hcg.trans hPause
  have E := setManualPause_effect noFail false s3
  rcases h5 : getCurrentSession noFail ((setManualPause noFail false s3).1) with ⟨s5, r5⟩
  have F5 := getCurrentSession_frame noFail ((setManualPause noFail false s3).1)
  rw [h5] at F5; dsimp only at F5
  have h5c : s5.cache.manualPause = some false := by
    rw [F5.2.2.2.2.2, E.2.2.2.2.2.2.2.2.2.2.2.1]
  have h5s : s5.store.manualPause = some "false" := by
    have hs := congrArg Store.manualPause F5.1
    rw [hs]
    exact E.2.2.2.2.2.2.2.2.2.2.2.2 rfl
  have FE := endSession_config_frame noFail now s5
  have FR := refreshTotals_frame noFail now (endSession noFail now s5).1
  rcases r5 with u5 | v5
  · simp [App.checkNetworkAndSession, h1, h2, h3, hr3, h5, hw, Except.toOption,
      checkRest_pause_frame, h5c, h5s]
  · rcases v5 with _ | sess
    · simp [App.checkNetworkAndSession, h1, h2, h3, hr3, h5, hw, Except.toOption,
        checkRest_pause_frame, h5c, h5s]
    · by_cases hz : ((1200000 : Int) < (now : Int) - (sess.lastActive : Int))
      · simp [App.checkNetworkAndSession, h1, h2, h3, hr3, h5, hw, hz, Except.toOption,
          FR.1, FR.2.1, FE.2.2.2.1, FE.2.2.2.2.2.2.2.1, h5c, h5s]
      · simp [App.checkNetworkAndSession, h1, h2, h3, hr3, h5, hw, hz, Except.toOption,
          checkRest_pause_frame, h5c, h5s]


/-- C6 witness: manual pause set, Wi-Fi disconnected — the tick clears it
in cache and store. -/
theorem auto_unpause_on_disconnect_witness :
    let s : EngineState := { cache := { manualPause := some true } }
    let r := App.checkNetworkAndSession noFail .android ⟨false, false, none, false, false⟩
      0 s {}
    (r.1).cache.manualPause = some false ∧ (r.1).store.manualPause = some "false" :=
  auto_unpause_on_disconnect .android ⟨false, false, none, false, false⟩ 0
    ({ cache := { manualPause := some true } }) {} (by decide) rfl


end Claims

end InTime
